import Mathlib

/-
Verification development for the `calcite-panel` web component
(src/packages/calcite-components/src/components/panel/panel.tsx).

The component is shallowly embedded: its reactive properties and internal
state become a record of booleans and strings, its event handlers become
state transformers, and the conditional `hidden` attributes computed by the
render methods become boolean-valued functions of the state.  The async
close sequencing (the `beforeClose` guard, the `closed` watcher, the
`requestAnimationFrame` revert) is modelled with an explicit guard outcome,
an explicit list of scheduled animation-frame actions, and an explicit
trace of the observable steps.
-/

/-- Events emitted by the panel (`calcitePanelClose`, `calcitePanelToggle`,
`calcitePanelScroll`); all are declared non-cancelable in the source. -/
inductive Evt where
  | panelClose
  | panelToggle
  | panelScroll
  deriving Repr, DecidableEq

/-- Outcome of the caller-supplied `beforeClose` guard promise: it either
resolves or rejects with a reason. -/
inductive GuardOutcome where
  | resolves
  | rejects (reason : String)
  deriving Repr, DecidableEq

/-- Callbacks scheduled with `requestAnimationFrame`.  The only one the
panel schedules is `() => { this.closed = false; }` in `close`'s catch. -/
inductive RafAction where
  | setClosedFalse
  deriving Repr, DecidableEq

/-- Observable steps of the close sequencing, in execution order:
writing the public `closed` prop, invoking the guard, emitting an event,
the guard promise settling, writing `isClosed`, scheduling the revert. -/
inductive TraceStep where
  | setClosed (value : Bool)
  | guardInvoked
  | emit (e : Evt)
  | guardSettled (resolved : Bool)
  | isClosedSet (value : Bool)
  | rafScheduled
  deriving Repr, DecidableEq

/-- A DOM element assigned to a slot, carrying the pieces the panel
inspects: its tag name (for `el.matches("calcite-action-bar")`) and its
`layout` property (mutated by the action-bar handler). -/
structure Elem where
  tagName : String
  layout : Option String
  deriving Repr, DecidableEq

/-- The panel's reactive properties and internal state, with the default
values from the source.  `heading`/`description` are `undefined` by
default, modelled as the (falsy) empty string. -/
structure PanelState where
  closed : Bool := false
  disabled : Bool := false
  closable : Bool := false
  collapsed : Bool := false
  collapseDirection : String := "down"
  collapsible : Bool := false
  loading : Bool := false
  menuOpen : Bool := false
  overlayPositioning : String := "absolute"
  scale : String := "m"
  heading : String := ""
  description : String := ""
  isClosed : Bool := false
  hasStartActions : Bool := false
  hasEndActions : Bool := false
  hasMenuItems : Bool := false
  hasHeaderContent : Bool := false
  hasActionBar : Bool := false
  hasContentBottom : Bool := false
  hasContentTop : Bool := false
  hasFab : Bool := false
  hasFooterActions : Bool := false
  hasFooterContent : Bool := false
  hasFooterEndContent : Bool := false
  hasFooterStartContent : Bool := false
  deriving Repr, DecidableEq

/-- The panel in its initial state: every property and flag at its
declared default. -/
def initialPanel : PanelState := {}

/-- Modelled from the spec: `slotChangeHasAssignedElement` (utils/dom, not
under src/) reports whether the slot firing the slot-change event currently
has at least one assigned element.  A slot-change event is modelled by the
list of elements currently assigned to the slot. -/
def slotChangeHasAssignedElement (assigned : List Elem) : Bool :=
  !assigned.isEmpty

/-- Modelled from the spec: `slotChangeGetAssignedElements` (utils/dom, not
under src/) returns the elements currently assigned to the slot firing the
slot-change event. -/
def slotChangeGetAssignedElements (assigned : List Elem) : List Elem :=
  assigned

/-- `this.hasStartActions = slotChangeHasAssignedElement(event)`. -/
def handleHeaderActionsStartSlotChange (s : PanelState) (ev : List Elem) : PanelState :=
  { s with hasStartActions := slotChangeHasAssignedElement ev }

/-- `this.hasEndActions = slotChangeHasAssignedElement(event)`. -/
def handleHeaderActionsEndSlotChange (s : PanelState) (ev : List Elem) : PanelState :=
  { s with hasEndActions := slotChangeHasAssignedElement ev }

/-- `this.hasMenuItems = slotChangeHasAssignedElement(event)`. -/
def handleHeaderMenuActionsSlotChange (s : PanelState) (ev : List Elem) : PanelState :=
  { s with hasMenuItems := slotChangeHasAssignedElement ev }

/-- `this.hasHeaderContent = slotChangeHasAssignedElement(event)`. -/
def handleHeaderContentSlotChange (s : PanelState) (ev : List Elem) : PanelState :=
  { s with hasHeaderContent := slotChangeHasAssignedElement ev }

/-- `this.hasFab = slotChangeHasAssignedElement(event)`. -/
def handleFabSlotChange (s : PanelState) (ev : List Elem) : PanelState :=
  { s with hasFab := slotChangeHasAssignedElement ev }

/-- `this.hasFooterActions = slotChangeHasAssignedElement(event)`. -/
def handleFooterActionsSlotChange (s : PanelState) (ev : List Elem) : PanelState :=
  { s with hasFooterActions := slotChangeHasAssignedElement ev }

/-- `this.hasFooterEndContent = slotChangeHasAssignedElement(event)`. -/
def handleFooterEndSlotChange (s : PanelState) (ev : List Elem) : PanelState :=
  { s with hasFooterEndContent := slotChangeHasAssignedElement ev }

/-- `this.hasFooterStartContent = slotChangeHasAssignedElement(event)`. -/
def handleFooterStartSlotChange (s : PanelState) (ev : List Elem) : PanelState :=
  { s with hasFooterStartContent := slotChangeHasAssignedElement ev }

/-- `this.hasFooterContent = slotChangeHasAssignedElement(event)`. -/
def handleFooterSlotChange (s : PanelState) (ev : List Elem) : PanelState :=
  { s with hasFooterContent := slotChangeHasAssignedElement ev }

/-- `this.hasContentBottom = slotChangeHasAssignedElement(event)`. -/
def contentBottomSlotChangeHandler (s : PanelState) (ev : List Elem) : PanelState :=
  { s with hasContentBottom := slotChangeHasAssignedElement ev }

/-- `this.hasContentTop = slotChangeHasAssignedElement(event)`. -/
def contentTopSlotChangeHandler (s : PanelState) (ev : List Elem) : PanelState :=
  { s with hasContentTop := slotChangeHasAssignedElement ev }

/-- `el.matches("calcite-action-bar")`, a tag-name selector. -/
def matchesActionBar (el : Elem) : Bool :=
  el.tagName == "calcite-action-bar"

/-- `handleActionBarSlotChange`: filters the assigned elements to those
matching `calcite-action-bar`, forces `layout = "horizontal"` on each
match (an in-place mutation, modelled by returning the slot's assigned
elements after the mutation), and sets `hasActionBar` to whether the
filtered list is non-empty (`!!actionBars.length`). -/
def handleActionBarSlotChange (s : PanelState) (ev : List Elem) :
    PanelState × List Elem :=
  let actionBars := (slotChangeGetAssignedElements ev).filter matchesActionBar
  let assignedAfter :=
    ev.map fun el =>
      if matchesActionBar el then { el with layout := some ("horizontal") } else el
  ({ s with hasActionBar := !actionBars.isEmpty }, assignedAfter)

/-- Runs a scheduled animation-frame callback.  The only callback the
panel schedules is `() => { this.closed = false; }`. -/
def runRaf : RafAction → PanelState → PanelState
  | RafAction.setClosedFalse, s => { s with closed := false }

/-- Result of the settlement half of `close`: the new state, the trace
steps it performs, the animation-frame callbacks it schedules, and the
error it lets escape (`none` because the `catch` block swallows the
rejection reason without rethrowing or logging). -/
structure SettleResult where
  state : PanelState
  trace : List TraceStep
  raf : List RafAction
  rethrown : Option String
  deriving Repr, DecidableEq

/-- The part of `close` that runs when the awaited `beforeClose()` promise
settles: on resolution `this.isClosed = true`; on rejection the `catch`
block schedules `requestAnimationFrame(() => { this.closed = false; })`
and returns, swallowing the reason. -/
def settleClose (s : PanelState) (g : GuardOutcome) : SettleResult :=
  match g with
  | GuardOutcome.resolves =>
      { state := { s with isClosed := true }
        trace := [TraceStep.guardSettled true, TraceStep.isClosedSet true]
        raf := []
        rethrown := none }
  | GuardOutcome.rejects _reason =>
      { state := s
        trace := [TraceStep.guardSettled false, TraceStep.rafScheduled]
        raf := [RafAction.setClosedFalse]
        rethrown := none }

/-- `close`: `const beforeClose = this.beforeClose ?? (() => Promise.resolve())`
— a missing guard defaults to a resolving one — and then the guard is
awaited and its settlement handled by `settleClose`. -/
def close (s : PanelState) (beforeClose : Option GuardOutcome) : SettleResult :=
  settleClose s (beforeClose.getD GuardOutcome.resolves)

/-- `open`: `this.isClosed = false`, unconditional and synchronous.
(Named `openPanel` because `open` is a Lean keyword.) -/
def openPanel (s : PanelState) : PanelState :=
  { s with isClosed := false }

/-- The `@Watch("closed")` handler: `value ? this.close() : this.open()`. -/
def toggleDialog (s : PanelState) (value : Bool) (beforeClose : Option GuardOutcome) :
    SettleResult :=
  if value then close s beforeClose
  else { state := openPanel s, trace := [], raf := [], rethrown := none }

/-- The synchronous body of `handleUserClose`: `this.closed = true` fires
the `closed` watcher synchronously, which starts `close()`; `close()`
invokes the `beforeClose` guard and suspends at the `await`, returning
control; then `this.calcitePanelClose.emit()` runs.  The guard's
settlement (`settleClose`) can only happen strictly later, on a
subsequent microtask. -/
def handleUserClose (s : PanelState) : PanelState × List TraceStep :=
  ({ s with closed := true },
   [TraceStep.setClosed true, TraceStep.guardInvoked, TraceStep.emit Evt.panelClose])

/-- A full user-initiated close: the synchronous `handleUserClose` phase
followed by the guard settling with outcome `g`. -/
def userClose (s : PanelState) (g : GuardOutcome) : SettleResult :=
  let p := handleUserClose s
  let r := settleClose p.1 g
  { r with trace := p.2 ++ r.trace }

/-- `panelKeyDownHandler`: on Escape with `closable` set and the event not
default-prevented, run `handleUserClose` and call `event.preventDefault()`
(the returned boolean records whether `preventDefault` was called). -/
def panelKeyDownHandler (s : PanelState) (key : String) (defaultPrevented : Bool) :
    PanelState × List TraceStep × Bool :=
  if s.closable && key == "Escape" && !defaultPrevented then
    let p := handleUserClose s
    (p.1, p.2, true)
  else (s, [], false)

/-- `collapse`: `this.collapsed = !this.collapsed` then
`this.calcitePanelToggle.emit()`; returns the new state and the events
emitted by this one invocation. -/
def collapse (s : PanelState) : PanelState × List Evt :=
  ({ s with collapsed := !s.collapsed }, [Evt.panelToggle])

/-- The scroll region element, carrying the pieces `resizeHandler`
inspects: its measurements (`none` models a value that is not a number)
and its `tabindex` attribute (`none` means the attribute is absent). -/
structure ScrollEl where
  scrollHeight : Option Int
  offsetHeight : Option Int
  tabindex : Option String
  deriving Repr, DecidableEq

/-- `resizeHandler`: a no-op when `panelScrollEl` is missing or either
measurement is not a number; otherwise sets `tabindex="0"` when
`scrollHeight > offsetHeight` and removes the attribute otherwise. -/
def resizeHandler (panelScrollEl : Option ScrollEl) : Option ScrollEl :=
  match panelScrollEl with
  | none => none
  | some el =>
    match el.scrollHeight, el.offsetHeight with
    | some scrollHeight, some offsetHeight =>
      if scrollHeight > offsetHeight then some { el with tabindex := some ("0") }
      else some { el with tabindex := none }
    | _, _ => some el

/-- The header-content block `renderHeaderContent` builds from the
`heading` and `description` properties. -/
structure HeaderContentBlock where
  headingNode : Option String
  descriptionNode : Option String
  deriving Repr, DecidableEq

/-- `renderHeaderContent`: `headingNode` when `heading` is truthy,
`descriptionNode` when `description` is truthy, and the block is rendered
only when there is no slotted header content and at least one node
exists (`!hasHeaderContent && (headingNode || descriptionNode)`). -/
def renderHeaderContent (s : PanelState) : Option HeaderContentBlock :=
  let headingNode : Option String := if s.heading != "" then some s.heading else none
  let descriptionNode : Option String :=
    if s.description != "" then some s.description else none
  if !s.hasHeaderContent && (headingNode.isSome || descriptionNode.isSome) then
    some { headingNode := headingNode, descriptionNode := descriptionNode }
  else none

/-- Whether the property-derived header-content block is rendered
(`!!headerContentNode` in `renderHeaderNode`). -/
def headerContentRendered (s : PanelState) : Bool :=
  (renderHeaderContent s).isSome

/-- `showHeaderContent` as computed in `renderHeaderNode` (the source also
caches this value into the `showHeaderContent` state field):
`hasHeaderContent || !!headerContentNode || hasStartActions ||
hasEndActions || collapsible || closable || hasMenuItems`. -/
def showHeaderContent (s : PanelState) : Bool :=
  s.hasHeaderContent || headerContentRendered s || s.hasStartActions ||
    s.hasEndActions || s.collapsible || s.closable || s.hasMenuItems

/-- The `hidden` attribute of the header container div in
`renderHeaderNode`: `hidden={!showHeaderContent}`. -/
def headerContainerHidden (s : PanelState) : Bool :=
  !showHeaderContent s

/-- The `hidden` attribute of the outer `<header>` element in
`renderHeaderNode`: `hidden={!(showHeaderContent || hasActionBar)}`. -/
def headerHidden (s : PanelState) : Bool :=
  !(showHeaderContent s || s.hasActionBar)

/-- The `hidden` attribute of the action-bar container in
`renderActionBar`: `hidden={!hasActionBar}`. -/
def actionBarContainerHidden (s : PanelState) : Bool :=
  !s.hasActionBar

/-- `showFooter` in `renderFooterNode`. -/
def showFooter (s : PanelState) : Bool :=
  s.hasFooterStartContent || s.hasFooterEndContent || s.hasFooterContent ||
    s.hasFooterActions

/-- The `hidden` attribute of the generic footer-content div:
`hidden={!hasFooterContent}`. -/
def footerContentHidden (s : PanelState) : Bool :=
  !s.hasFooterContent

/-- The `hidden` attribute of the footer-start div:
`hidden={hasFooterContent || !hasFooterStartContent}`. -/
def footerStartHidden (s : PanelState) : Bool :=
  s.hasFooterContent || !s.hasFooterStartContent

/-- The `hidden` attribute of the footer-end div:
`hidden={hasFooterContent || !hasFooterEndContent}`. -/
def footerEndHidden (s : PanelState) : Bool :=
  s.hasFooterContent || !s.hasFooterEndContent

/-- The `hidden` attribute of the footer-actions div:
`hidden={hasFooterContent || !hasFooterActions}`. -/
def footerActionsHidden (s : PanelState) : Bool :=
  s.hasFooterContent || !s.hasFooterActions

/-- The `hidden` attribute of the content wrapper in `renderContent`:
`hidden={this.collapsible && this.collapsed}`. -/
def contentWrapperHidden (s : PanelState) : Bool :=
  s.collapsible && s.collapsed

/-- The `hidden` attribute of the panel's `<article>` container in
`render`: `hidden={isClosed}`. -/
def containerHidden (s : PanelState) : Bool :=
  s.isClosed

/-- A filtered list is non-empty exactly when some element satisfies the
test. -/
lemma not_isEmpty_filter_eq_any {α : Type} (p : α → Bool) (l : List α) :
    (!(l.filter p).isEmpty) = l.any p := by
  induction l with
  | nil => rfl
  | cons h t ih =>
    by_cases hp : p h
    · simp [List.filter_cons, hp]
    · simp [List.filter_cons, hp, ih]

/-- Claim C1: a close request runs the `beforeClose` guard (defaulting to
a resolving guard when none is supplied); on resolution `isClosed` becomes
true; on rejection `isClosed` is unchanged (the panel stays open), the
public `closed` property is untouched synchronously and is reverted to
false by the scheduled animation-frame callback, and the rejection reason
is swallowed (nothing is rethrown). -/
theorem c1_close_guard (s : PanelState) (r : String) :
    (close s (some GuardOutcome.resolves)).state.isClosed = true ∧
    (close s none).state.isClosed = true ∧
    (close s (some (GuardOutcome.rejects r))).state.isClosed = s.isClosed ∧
    (close s (some (GuardOutcome.rejects r))).state.closed = s.closed ∧
    (close s (some (GuardOutcome.rejects r))).raf = [RafAction.setClosedFalse] ∧
    (((close s (some (GuardOutcome.rejects r))).raf).foldl
        (fun st a => runRaf a st)
        (close s (some (GuardOutcome.rejects r))).state).closed = false ∧
    (close s (some (GuardOutcome.rejects r))).rethrown = none ∧
    toggleDialog s true (some (GuardOutcome.rejects r)) =
      close s (some (GuardOutcome.rejects r)) := by
  exact ⟨rfl, rfl, rfl, rfl, rfl, rfl, rfl, rfl⟩

/-- Claim C2: a user-initiated close (close-affordance click or Escape
when closable) sets the public `closed` property to true and emits
`calcitePanelClose` in its synchronous phase — the `closed` write is step
0 and the emission step 2 of the trace — while the guard's settlement and
any effect of its outcome occupy step 3 onward; the emission therefore
happens exactly once whatever the guard's outcome, i.e. it fires
regardless of whether the guard later prevents the close.  (The guard
function itself is invoked synchronously by the `closed` watcher, step 1,
but its outcome can only be applied after the emission.) -/
theorem c2_user_close_emit_ordering (s : PanelState) (g : GuardOutcome) :
    (handleUserClose s).1.closed = true ∧
    (userClose s g).trace.findIdx? (fun t => t == TraceStep.setClosed true) = some 0 ∧
    (userClose s g).trace.findIdx? (fun t => t == TraceStep.emit Evt.panelClose) = some 2 ∧
    (userClose s g).trace.findIdx?
        (fun t => match t with | TraceStep.guardSettled _ => true | _ => false) =
      some 3 ∧
    (userClose s g).trace.count (TraceStep.emit Evt.panelClose) = 1 ∧
    (panelKeyDownHandler { s with closable := true } ("Escape") false).2.1 =
      (handleUserClose { s with closable := true }).2 ∧
    (panelKeyDownHandler { s with closable := true } ("Escape") false).1.closed = true := by
  cases g <;> exact ⟨rfl, rfl, rfl, rfl, rfl, rfl, rfl⟩

/-- Claim C3, counterexample: with every presence flag false, not
collapsible, not closable, and no menu items, but a non-empty `heading`
property, the header container is rendered visible — refuting "hidden when
all of these are false". -/
theorem c3_counterexample :
    headerContainerHidden { initialPanel with heading := "Title" } = false ∧
    (({ initialPanel with heading := "Title" } : PanelState).hasHeaderContent ||
        ({ initialPanel with heading := "Title" } : PanelState).hasStartActions ||
        ({ initialPanel with heading := "Title" } : PanelState).hasEndActions ||
        ({ initialPanel with heading := "Title" } : PanelState).collapsible ||
        ({ initialPanel with heading := "Title" } : PanelState).closable ||
        ({ initialPanel with heading := "Title" } : PanelState).hasMenuItems) = false := by
  decide

/-- Claim C3, amended: the header container is visible iff slotted header
content is present, or the property-derived heading/description block is
rendered (no slotted header content and a non-empty `heading` or
`description`), or start actions, end actions, collapsible, closable, or
menu items; with `heading` and `description` empty it is hidden when all
flags are false and visible when each is individually true.  (The outer
`<header>` is additionally shown when an action bar is present.) -/
theorem c3_header_container_visibility (s : PanelState) :
    (headerContainerHidden s = false ↔
      (s.hasHeaderContent || headerContentRendered s || s.hasStartActions ||
          s.hasEndActions || s.collapsible || s.closable || s.hasMenuItems) = true) ∧
    headerContainerHidden initialPanel = true ∧
    headerContainerHidden { initialPanel with hasHeaderContent := true } = false ∧
    headerContainerHidden { initialPanel with hasStartActions := true } = false ∧
    headerContainerHidden { initialPanel with hasEndActions := true } = false ∧
    headerContainerHidden { initialPanel with collapsible := true } = false ∧
    headerContainerHidden { initialPanel with closable := true } = false ∧
    headerContainerHidden { initialPanel with hasMenuItems := true } = false ∧
    headerHidden { initialPanel with hasActionBar := true } = false := by
  refine ⟨?_, by decide, by decide, by decide, by decide, by decide, by decide,
    by decide, by decide⟩
  show (!showHeaderContent s) = false ↔ showHeaderContent s = true
  cases hx : showHeaderContent s <;> simp [hx]

/-- Claim C4: each footer sub-region (start, end, actions) is hidden
whenever the generic footer slot has content, regardless of its own
presence flag; and when the generic footer slot is empty, each sub-region
is hidden exactly when its own presence flag is false. -/
theorem c4_footer_subregions (s : PanelState) :
    footerStartHidden { s with hasFooterContent := true } = true ∧
    footerEndHidden { s with hasFooterContent := true } = true ∧
    footerActionsHidden { s with hasFooterContent := true } = true ∧
    footerStartHidden { s with hasFooterContent := false } = !s.hasFooterStartContent ∧
    footerEndHidden { s with hasFooterContent := false } = !s.hasFooterEndContent ∧
    footerActionsHidden { s with hasFooterContent := false } = !s.hasFooterActions := by
  exact ⟨rfl, rfl, rfl, rfl, rfl, rfl⟩

/-- Claim C5, counterexample: the action-bar region is a named optional
content region with a presence flag (`hasActionBar`), yet after its
slot-change handler runs with one assigned element that is not a
`calcite-action-bar`, the slot has an assigned element while the flag is
false — refuting "the flag equals whether the slot has at least one
assigned element" for every region. -/
theorem c5_counterexample :
    slotChangeHasAssignedElement [{ tagName := "div", layout := none }] = true ∧
    (handleActionBarSlotChange initialPanel
        [{ tagName := "div", layout := none }]).1.hasActionBar = false := by
  decide

/-- Claim C5, amended: for every named optional content region except the
action-bar region, after its slot-change handler runs the corresponding
`hasX` flag equals whether the slot currently has at least one assigned
element, re-established on every slot-change event (so assigning then
removing content toggles the flag true then false); for the action-bar
region, `hasActionBar` instead equals whether at least one assigned
element matches `calcite-action-bar`. -/
theorem c5_slot_presence_flags (s : PanelState) (ev : List Elem) (e : Elem) :
    (handleHeaderActionsStartSlotChange s ev).hasStartActions = !ev.isEmpty ∧
    (handleHeaderActionsEndSlotChange s ev).hasEndActions = !ev.isEmpty ∧
    (handleHeaderMenuActionsSlotChange s ev).hasMenuItems = !ev.isEmpty ∧
    (handleHeaderContentSlotChange s ev).hasHeaderContent = !ev.isEmpty ∧
    (handleFabSlotChange s ev).hasFab = !ev.isEmpty ∧
    (handleFooterActionsSlotChange s ev).hasFooterActions = !ev.isEmpty ∧
    (handleFooterEndSlotChange s ev).hasFooterEndContent = !ev.isEmpty ∧
    (handleFooterStartSlotChange s ev).hasFooterStartContent = !ev.isEmpty ∧
    (handleFooterSlotChange s ev).hasFooterContent = !ev.isEmpty ∧
    (contentBottomSlotChangeHandler s ev).hasContentBottom = !ev.isEmpty ∧
    (contentTopSlotChangeHandler s ev).hasContentTop = !ev.isEmpty ∧
    (handleHeaderActionsStartSlotChange s [e]).hasStartActions = true ∧
    (handleHeaderActionsStartSlotChange
        (handleHeaderActionsStartSlotChange s [e]) []).hasStartActions = false ∧
    (handleActionBarSlotChange s ev).1.hasActionBar = ev.any matchesActionBar := by
  refine ⟨rfl, rfl, rfl, rfl, rfl, rfl, rfl, rfl, rfl, rfl, rfl, rfl, rfl, ?_⟩
  exact not_isEmpty_filter_eq_any matchesActionBar ev

/-- Claim C6: on a resize notification, a missing scroll element or a
non-numeric measurement makes the handler a no-op; with numeric
measurements, the `tabindex` attribute is set to `"0"` when the scroll
height strictly exceeds the visible height and removed otherwise. -/
theorem c6_resize_scroll_affordance (el : ScrollEl) (sh oh : Int) :
    resizeHandler none = none ∧
    resizeHandler (some { el with scrollHeight := some sh, offsetHeight := some oh }) =
      some { el with
        scrollHeight := some sh
        offsetHeight := some oh
        tabindex := if sh > oh then some ("0") else none } ∧
    resizeHandler (some { el with scrollHeight := none }) =
      some { el with scrollHeight := none } ∧
    resizeHandler (some { el with scrollHeight := some sh, offsetHeight := none }) =
      some { el with scrollHeight := some sh, offsetHeight := none } := by
  refine ⟨rfl, ?_, rfl, rfl⟩
  by_cases h : sh > oh
  · simp [resizeHandler, h]
  · simp [resizeHandler, h]

/-- Claim C7: with `collapsible = true` and `collapsed = false`, one click
of the collapse affordance (one invocation of `collapse`) flips
`collapsed` to true and emits `calcitePanelToggle` exactly once. -/
theorem c7_collapse_click (s : PanelState) :
    (collapse { s with collapsible := true, collapsed := false }).1.collapsed = true ∧
    (collapse { s with collapsible := true, collapsed := false }).1.collapsible = true ∧
    (collapse { s with collapsible := true, collapsed := false }).2.count
        Evt.panelToggle = 1 := by
  exact ⟨rfl, rfl, rfl⟩

/-- Claim C8: on an action-bar slot-change, `hasActionBar` is true iff at
least one assigned element matches `calcite-action-bar`; every matching
assigned element gets its `layout` forced to `"horizontal"`; non-matching
assigned elements are left exactly as they were; and the assigned list
keeps its length (nothing is added or removed). -/
theorem c8_action_bar_filtering (s : PanelState) (ev : List Elem) :
    (handleActionBarSlotChange s ev).1.hasActionBar = ev.any matchesActionBar ∧
    ((handleActionBarSlotChange s ev).2.filter fun el => !matchesActionBar el) =
      (ev.filter fun el => !matchesActionBar el) ∧
    ((handleActionBarSlotChange s ev).2.filter matchesActionBar).all
        (fun el => el.layout == some ("horizontal")) = true ∧
    (handleActionBarSlotChange s ev).2.length = ev.length := by
  refine ⟨not_isEmpty_filter_eq_any matchesActionBar ev, ?_, ?_, ?_⟩
  · show ((ev.map fun el =>
        if matchesActionBar el then { el with layout := some ("horizontal") } else el).filter
          fun el => !matchesActionBar el) = (ev.filter fun el => !matchesActionBar el)
    induction ev with
    | nil => rfl
    | cons h t ih =>
      by_cases hp : h.tagName = "calcite-action-bar"
      · simp [matchesActionBar, hp, List.filter_cons] at ih ⊢
        exact ih
      · simp [matchesActionBar, hp, List.filter_cons] at ih ⊢
        exact ih
  · show ((ev.map fun el =>
        if matchesActionBar el then { el with layout := some ("horizontal") } else el).filter
          matchesActionBar).all (fun el => el.layout == some ("horizontal")) = true
    induction ev with
    | nil => rfl
    | cons h t ih =>
      by_cases hp : h.tagName = "calcite-action-bar"
      · simp [matchesActionBar, hp, List.filter_cons] at ih ⊢
        exact ih
      · simp [matchesActionBar, hp, List.filter_cons] at ih ⊢
        exact ih
  · show (ev.map fun el =>
        if matchesActionBar el then { el with layout := some ("horizontal") } else el).length =
      ev.length
    exact List.length_map _ _

/-- Claim C9: the content wrapper is hidden iff the panel is both
collapsible and collapsed; in particular, `collapsed = true` with
`collapsible = false` leaves the content area visible. -/
theorem c9_content_wrapper (s : PanelState) :
    (contentWrapperHidden s = true ↔ s.collapsible = true ∧ s.collapsed = true) ∧
    contentWrapperHidden { s with collapsible := false, collapsed := true } = false := by
  constructor
  · simp [contentWrapperHidden]
  · rfl

/-- Claim C10: the property-derived heading/description block is rendered
iff the header-content slot has no assigned content and at least one of
`heading` or `description` is non-empty; slotted header content always
suppresses the block. -/
theorem c10_header_content_block (s : PanelState) :
    ((renderHeaderContent s).isSome = true ↔
      s.hasHeaderContent = false ∧ (s.heading ≠ "" ∨ s.description ≠ "")) ∧
    renderHeaderContent { s with hasHeaderContent := true } = none := by
  constructor
  · by_cases h1 : s.hasHeaderContent <;> by_cases h2 : s.heading = "" <;>
      by_cases h3 : s.description = "" <;>
      simp [renderHeaderContent, h1, h2, h3]
  · simp [renderHeaderContent]
